import Mathlib

/-!
Shallow embedding of `src/api/crawl.py` (PandaPal chunked crawl orchestrator).

The handler `crawl` is embedded as a pure function from an explicit
environment (configuration, request data, collaborator outcomes, clock
values) to an HTTP outcome paired with a record of observable effects.
Python integers are `Int` (with `Int.fdiv` for `//`, which floors like
Python), Python list slicing and `int()` parsing are modelled below, and
wall-clock reads (`time.time()`) are counted explicitly so that claims
about elapsed-time computation are statable.
-/

namespace PandaPal

/-- Python truthiness of an optional string: `None` and `""` are falsy. -/
def pyTruthy : Option String → Bool
  | none => false
  | some s => !s.isEmpty

/-- Numeric value of a list of decimal digit characters. -/
def digitsVal (l : List Char) : Nat :=
  l.foldl (fun a c => a * 10 + (c.toNat - 48)) 0

/-- Strip leading and trailing whitespace, as Python `int()` does. -/
def pyStrip (l : List Char) : List Char :=
  ((l.dropWhile Char.isWhitespace).reverse.dropWhile Char.isWhitespace).reverse

/-- Python `int(s)`: optional surrounding whitespace, optional sign, decimal
digits; anything else raises `ValueError`, modelled as `none`.
(Digit-group underscores accepted by CPython are not modelled; no claim
depends on them.) -/
def pyParseInt (s : String) : Option Int :=
  match pyStrip s.toList with
  | [] => none
  | c :: rest =>
    let signDigits : Int × List Char :=
      if c = '-' then (-1, rest)
      else if c = '+' then (1, rest)
      else (1, c :: rest)
    if !signDigits.2.isEmpty && signDigits.2.all Char.isDigit then
      some (signDigits.1 * (digitsVal signDigits.2 : Int))
    else none

/-- Python list slice `l[a:b]`: clamp one bound (negative values count from
the end, then clamp to `[0, len]`). -/
def pySliceBound (len : Nat) (i : Int) : Nat :=
  if i < 0 then (i + len).toNat else min i.toNat len

/-- Python list slice `l[a:b]` with step 1. -/
def pySlice {α : Type} (l : List α) (a b : Int) : List α :=
  let lo := pySliceBound l.length a
  let hi := pySliceBound l.length b
  (l.drop lo).take (hi - lo)

/-- Python `str.lower()` (ASCII suffices for the `auto` flag). -/
def pyLower (s : String) : String :=
  String.mk (s.toList.map Char.toLower)

/-- Python `str.rstrip('/')`. -/
def rstripSlash (s : String) : String :=
  String.mk ((s.toList.reverse.dropWhile (fun c => c = '/')).reverse)

/-- Python `s.startswith('http')`. -/
def startsWithHttp (s : String) : Bool :=
  match s.toList with
  | 'h' :: 't' :: 't' :: 'p' :: _ => true
  | _ => false

/-- `crawl.py` line 19: advisory execution budget (declared, never enforced). -/
def MAX_EXECUTION_TIME_SEC : Int := 270

/-- `crawl.py` line 21: default `size` query parameter. -/
def DEFAULT_CHUNK_SIZE : Int := 5

/-- `crawl.py` line 63: `total_chunks = (total_catalogs + chunk_size - 1) // chunk_size`. -/
def total_chunks (total_catalogs chunk_size : Int) : Int :=
  (total_catalogs + chunk_size - 1).fdiv chunk_size

/-- `crawl.py` line 66: `start_idx = chunk_index * chunk_size`. -/
def start_idx (chunk_index chunk_size : Int) : Int :=
  chunk_index * chunk_size

/-- `crawl.py` line 75: `end_idx = min(start_idx + chunk_size, total_catalogs)`. -/
def end_idx (chunk_index chunk_size total_catalogs : Int) : Int :=
  min (start_idx chunk_index chunk_size + chunk_size) total_catalogs

/-- `crawl.py` line 84: `has_more = end_idx < total_catalogs`. -/
def has_more (chunk_index chunk_size total_catalogs : Int) : Bool :=
  decide (end_idx chunk_index chunk_size total_catalogs < total_catalogs)

/-- `crawl.py` lines 46-50: the auth guard. Authorized when no (truthy)
secret is configured, or when the header is present and equals the literal
`"Bearer " + secret`. -/
def authorize (cron_secret auth_header : Option String) : Bool :=
  if pyTruthy cron_secret then
    pyTruthy auth_header && (auth_header == some ("Bearer " ++ cron_secret.getD ""))
  else
    true

/-- `crawl.py` lines 91-93: base-URL resolution for the continuation call. -/
def resolve_base_url (raw_base_url : String) (host : Option String) : String :=
  let base_url := rstripSlash raw_base_url
  if startsWithHttp base_url then base_url
  else "https://" ++ host.getD "localhost"

/-- The outbound HTTP request built by `trigger_next_chunk`
(`crawl.py` lines 26-33). -/
structure OutboundRequest where
  url : String
  authorization : Option String
  timeoutSeconds : Rat
deriving DecidableEq

/-- `crawl.py` lines 23-33: build the continuation request. The
`Authorization` header is attached only when the inbound one is truthy. -/
def trigger_next_chunk (base_url : String) (chunk_index chunk_size : Int)
    (auth_header : Option String) : OutboundRequest :=
  { url := base_url ++ "/api/crawl?chunk=" ++ toString chunk_index
      ++ "&size=" ++ toString chunk_size,
    authorization := if pyTruthy auth_header then auth_header else none,
    timeoutSeconds := 10 }

/-- Arguments recorded by `background_tasks.add_task(trigger_next_chunk, ...)`
(`crawl.py` lines 96-102). -/
structure DispatchTask where
  base_url : String
  chunk_index : Int
  chunk_size : Int
  auth_header : Option String
deriving DecidableEq

/-- Running the background task: the request goes out; any network failure
is caught inside `trigger_next_chunk` (`crawl.py` lines 35-36), logged
(second component) and swallowed, so the task always completes. -/
def runBackgroundTask (t : DispatchTask) (net : Except String Unit) :
    OutboundRequest × Bool :=
  (trigger_next_chunk t.base_url t.chunk_index t.chunk_size t.auth_header,
   match net with
   | Except.error _ => true
   | Except.ok _ => false)

/-- Approximation of Python `round(x, 1)` on rationals (CPython rounds the
float half-to-even; no claim depends on the rounded value). -/
def pyRound1 (q : Rat) : Rat := (round (q * 10) : Int) / 10

/-- JSON response body of `crawl`. Fields absent from a given return
statement are `none` (the early-complete return at `crawl.py` lines 68-73
carries only four of the nine keys). -/
structure Body where
  status : String
  message : String
  chunk : Option Int
  chunks_total : Int
  processed : Option Int
  total : Int
  elapsed_seconds : Option Rat
  next_chunk : Option Int
  auto_continuing : Option Bool
deriving DecidableEq

/-- Outcome of one invocation: a 200 body, or an `HTTPException` with
status code and detail. -/
inductive CrawlResult where
  | ok (body : Body)
  | error (status : Nat) (detail : String)
deriving DecidableEq

/-- Observable side effects of one invocation. `clockReads` counts the
`time.time()` calls that executed (line 40 always; line 83 only when the
build succeeded). -/
structure Effects where
  warnedNoSecret : Bool
  paramsParsed : Bool
  universeFetched : Bool
  buildCalled : Bool
  buildInput : Option (List String)
  backgroundDispatch : Option DispatchTask
  dispatchErrorLogged : Bool
  clockReads : Nat
deriving DecidableEq

/-- Environment of one invocation: process configuration, request data, and
the outcomes of the external collaborators (catalog list, builder, clock,
continuation network call). -/
structure Env where
  cronSecret : Option String
  authHeader : Option String
  chunkParam : Option String
  sizeParam : Option String
  autoParam : Option String
  configs : List String
  buildResult : Except String Unit
  startTime : Rat
  buildEndTime : Rat
  baseUrl : String
  hostHeader : Option String
  dispatchNetResult : Except String Unit

/-- `crawl.py` line 54: `int(request.query_params.get("chunk", 0))`. -/
def parsedChunk (env : Env) : Option Int :=
  match env.chunkParam with
  | none => some 0
  | some s => pyParseInt s

/-- `crawl.py` line 55: `int(request.query_params.get("size", DEFAULT_CHUNK_SIZE))`. -/
def parsedSize (env : Env) : Option Int :=
  match env.sizeParam with
  | none => some DEFAULT_CHUNK_SIZE
  | some s => pyParseInt s

/-- `crawl.py` line 56: `request.query_params.get("auto", "true").lower() == "true"`. -/
def parsedAuto (env : Env) : Bool :=
  pyLower (env.autoParam.getD "true") == "true"

/-- The handler `crawl` (`crawl.py` lines 38-118), as a pure function from
the invocation environment to the HTTP outcome and the observable effects.
Control flow follows the source: auth guard, parameter parsing, universe
fetch, `total_chunks` division (a `ZeroDivisionError` when `size = 0` is
caught by the outer `except` as a 500), early-complete return, build (an
exception becomes a 500 before the second clock read), then elapsed time,
conditional background dispatch, and the success body. -/
def crawl (env : Env) : CrawlResult × Effects :=
  if !authorize env.cronSecret env.authHeader then
    (CrawlResult.error 401 "Unauthorized",
     { warnedNoSecret := false, paramsParsed := false, universeFetched := false,
       buildCalled := false, buildInput := none, backgroundDispatch := none,
       dispatchErrorLogged := false, clockReads := 1 })
  else
    let warned := !pyTruthy env.cronSecret
    match parsedChunk env, parsedSize env with
    | some chunk_index, some chunk_size =>
      let auto_continue := parsedAuto env
      let total_catalogs : Int := env.configs.length
      if chunk_size = 0 then
        (CrawlResult.error 500 "integer division or modulo by zero",
         { warnedNoSecret := warned, paramsParsed := true, universeFetched := true,
           buildCalled := false, buildInput := none, backgroundDispatch := none,
           dispatchErrorLogged := false, clockReads := 1 })
      else
        let tc := total_chunks total_catalogs chunk_size
        let s_idx := start_idx chunk_index chunk_size
        if total_catalogs ≤ s_idx then
          (CrawlResult.ok
            { status := "complete", message := "All catalogs already processed.",
              chunk := none, chunks_total := tc, processed := none,
              total := total_catalogs, elapsed_seconds := none,
              next_chunk := none, auto_continuing := none },
           { warnedNoSecret := warned, paramsParsed := true, universeFetched := true,
             buildCalled := false, buildInput := none, backgroundDispatch := none,
             dispatchErrorLogged := false, clockReads := 1 })
        else
          let e_idx := end_idx chunk_index chunk_size total_catalogs
          let chunk_configs := pySlice env.configs s_idx e_idx
          match env.buildResult with
          | Except.error e =>
            (CrawlResult.error 500 e,
             { warnedNoSecret := warned, paramsParsed := true, universeFetched := true,
               buildCalled := true, buildInput := some chunk_configs,
               backgroundDispatch := none, dispatchErrorLogged := false,
               clockReads := 1 })
          | Except.ok _ =>
            let elapsed := env.buildEndTime - env.startTime
            let hm := has_more chunk_index chunk_size total_catalogs
            let task : Option DispatchTask :=
              if hm && auto_continue then
                some { base_url := resolve_base_url env.baseUrl env.hostHeader,
                       chunk_index := chunk_index + 1, chunk_size := chunk_size,
                       auth_header := env.authHeader }
              else none
            (CrawlResult.ok
              { status := if hm then "success" else "complete",
                message := "Crawled catalogs " ++ toString (s_idx + 1)
                  ++ " to " ++ toString e_idx,
                chunk := some (chunk_index + 1), chunks_total := tc,
                processed := some (chunk_configs.length : Int),
                total := total_catalogs,
                elapsed_seconds := some (pyRound1 elapsed),
                next_chunk := if hm then some (chunk_index + 1) else none,
                auto_continuing := some (hm && auto_continue) },
             { warnedNoSecret := warned, paramsParsed := true, universeFetched := true,
               buildCalled := true, buildInput := some chunk_configs,
               backgroundDispatch := task,
               dispatchErrorLogged :=
                 match task with
                 | some t => (runBackgroundTask t env.dispatchNetResult).2
                 | none => false,
               clockReads := 2 })
    | _, _ =>
      (CrawlResult.error 400 "Invalid chunk or size parameters",
       { warnedNoSecret := warned, paramsParsed := true, universeFetched := false,
         buildCalled := false, buildInput := none, backgroundDispatch := none,
         dispatchErrorLogged := false, clockReads := 1 })

/-- Projection: the `processed` field of a 200 body, if any. -/
def resultProcessed : CrawlResult → Option Int
  | CrawlResult.ok b => b.processed
  | CrawlResult.error _ _ => none

/-! ## Claim theorems -/

/-- C8: for every `totalItems ≥ 0` and `size ≥ 1`, the computed
`chunks_total` is `0` iff `totalItems = 0`, and otherwise equals
`⌈totalItems / size⌉`. -/
theorem chunks_total_spec (t s : Int) (ht : 0 ≤ t) (hs : 1 ≤ s) :
    (total_chunks t s = 0 ↔ t = 0) ∧
    (t ≠ 0 → total_chunks t s = ⌈(t : ℚ) / (s : ℚ)⌉) := by
  have hs0 : (0 : Int) < s := hs
  have hfd : total_chunks t s = (t + s - 1) / s :=
    Int.fdiv_eq_ediv _ hs0.le
  have hq := Int.ediv_add_emod (t + s - 1) s
  have hr0 : 0 ≤ (t + s - 1) % s := Int.emod_nonneg _ hs0.ne'
  have hrs : (t + s - 1) % s < s := Int.emod_lt_of_pos _ hs0
  rw [hfd]
  refine ⟨⟨fun h0 => ?_, fun h0 => ?_⟩, fun ht0 => ?_⟩
  · rw [h0, mul_zero] at hq
    omega
  · subst h0
    exact Int.ediv_eq_zero_of_lt (by omega) (by omega)
  · have hsQ : (0 : ℚ) < (s : ℚ) := by exact_mod_cast hs0
    have hle : t ≤ ((t + s - 1) / s) * s := by
      have hc : ((t + s - 1) / s) * s = s * ((t + s - 1) / s) := mul_comm _ _
      rw [hc]; omega
    have hlt : ((t + s - 1) / s - 1) * s < t := by
      have hc : ((t + s - 1) / s - 1) * s = s * ((t + s - 1) / s) - s := by ring
      rw [hc]; omega
    symm
    rw [Int.ceil_eq_iff]
    constructor
    · rw [lt_div_iff₀ hsQ]
      exact_mod_cast hlt
    · rw [div_le_iff₀ hsQ]
      exact_mod_cast hle

/-- C8 witness: `totalItems = 12`, `size = 5` gives `chunks_total = ⌈12/5⌉`. -/
theorem chunks_total_spec_witness : total_chunks 12 5 = ⌈(12 : ℚ) / (5 : ℚ)⌉ :=
  (chunks_total_spec 12 5 (by decide) (by decide)).2 (by decide)

/-- C1: for every `totalItems ≥ 0` and `size ≥ 1` there is a last index `K`
(the first with `has_more = false`) such that every earlier plan has
`has_more = true`, every slice up to `K` lies inside `[0, totalItems)`, and
every position in `[0, totalItems)` lies in exactly one slice: the plans
cover the interval with no gaps and no overlaps. -/
theorem chunk_plan_partition (s t : Int) (hs : 1 ≤ s) (ht : 0 ≤ t) :
    ∃ K : Int, 0 ≤ K ∧
      has_more K s t = false ∧
      (∀ i : Int, 0 ≤ i → i < K → has_more i s t = true) ∧
      (∀ i : Int, 0 ≤ i → i ≤ K → ∀ j : Int,
        start_idx i s ≤ j → j < end_idx i s t → 0 ≤ j ∧ j < t) ∧
      (∀ j : Int, 0 ≤ j → j < t →
        ∃! i : Int, 0 ≤ i ∧ i ≤ K ∧ start_idx i s ≤ j ∧ j < end_idx i s t) := by
  have hs0 : (0 : Int) < s := hs
  by_cases ht0 : t = 0
  · subst ht0
    refine ⟨0, le_refl 0, ?_, ?_, ?_, ?_⟩
    · simp only [has_more, end_idx, start_idx, decide_eq_false_iff_not, not_lt]
      exact le_min (by omega) le_rfl
    · intro i h0 hi
      omega
    · intro i h0 hK j hsj hje
      have h1 : (0 : Int) ≤ i * s := mul_nonneg h0 hs0.le
      have h2 : end_idx i s 0 ≤ 0 := min_le_right _ _
      simp only [start_idx] at hsj
      exact ⟨le_trans h1 hsj, lt_of_lt_of_le hje h2⟩
    · intro j h0 hj
      omega
  · have ht1 : 1 ≤ t := by omega
    obtain ⟨q, r, hq, hr0, hrs⟩ :
        ∃ q r : Int, s * q + r = t + s - 1 ∧ 0 ≤ r ∧ r < s :=
      ⟨(t + s - 1) / s, (t + s - 1) % s, Int.ediv_add_emod _ _,
        Int.emod_nonneg _ hs0.ne', Int.emod_lt_of_pos _ hs0⟩
    have hq1 : 1 ≤ q := by
      by_contra h
      push_neg at h
      have hq0 : q ≤ 0 := by omega
      have : s * q ≤ s * 0 := mul_le_mul_of_nonneg_left hq0 hs0.le
      omega
    refine ⟨q - 1, by omega, ?_, ?_, ?_, ?_⟩
    · simp only [has_more, end_idx, start_idx, decide_eq_false_iff_not, not_lt]
      have hKs : (q - 1) * s + s = s * q := by ring
      exact le_min (by omega) le_rfl
    · intro i hi0 hiK
      simp only [has_more, end_idx, start_idx, decide_eq_true_eq]
      have hle : i * s ≤ (q - 2) * s := mul_le_mul_of_nonneg_right (by omega) hs0.le
      have hc : (q - 2) * s = s * q - 2 * s := by ring
      have hlt : i * s + s < t := by omega
      exact min_lt_iff.mpr (Or.inl hlt)
    · intro i hi0 hiK j hsj hje
      have h1 : (0 : Int) ≤ i * s := mul_nonneg hi0 hs0.le
      have h2 : end_idx i s t ≤ t := min_le_right _ _
      simp only [start_idx] at hsj
      exact ⟨le_trans h1 hsj, lt_of_lt_of_le hje h2⟩
    · intro j hj0 hjt
      obtain ⟨qj, rj, hjq, hjr0, hjrs⟩ :
          ∃ qj rj : Int, s * qj + rj = j ∧ 0 ≤ rj ∧ rj < s :=
        ⟨j / s, j % s, Int.ediv_add_emod _ _,
          Int.emod_nonneg _ hs0.ne', Int.emod_lt_of_pos _ hs0⟩
      have hqj0 : 0 ≤ qj := by
        by_contra h
        push_neg at h
        have h1 : qj ≤ -1 := by omega
        have h2 : s * qj ≤ s * (-1) := mul_le_mul_of_nonneg_left h1 hs0.le
        omega
      have hqjK : qj ≤ q - 1 := by
        by_contra h
        push_neg at h
        have h1 : q ≤ qj := by omega
        have h2 : s * q ≤ s * qj := mul_le_mul_of_nonneg_left h1 hs0.le
        omega
      have hcj : qj * s = s * qj := mul_comm _ _
      refine ⟨qj, ⟨hqj0, hqjK, ?_, ?_⟩, ?_⟩
      · simp only [start_idx]
        omega
      · simp only [end_idx, start_idx]
        exact lt_min (by omega) hjt
      · rintro y ⟨hy0, hyK, hys, hye⟩
        simp only [start_idx, end_idx] at hys hye
        have hye' : j < y * s + s := lt_of_lt_of_le hye (min_le_left _ _)
        have hc1 : (qj + 1) * s = s * qj + s := by ring
        have h1 : y * s < (qj + 1) * s := by omega
        have hc3 : (y + 1) * s = y * s + s := by ring
        have h2 : qj * s < (y + 1) * s := by omega
        have hy_lt : y < qj + 1 := lt_of_mul_lt_mul_right h1 hs0.le
        have hqj_lt : qj < y + 1 := lt_of_mul_lt_mul_right h2 hs0.le
        omega

/-- C1 witness: the partition property at `size = 5`, `totalItems = 12`. -/
theorem chunk_plan_partition_witness :
    ∃ K : Int, 0 ≤ K ∧
      has_more K 5 12 = false ∧
      (∀ i : Int, 0 ≤ i → i < K → has_more i 5 12 = true) ∧
      (∀ i : Int, 0 ≤ i → i ≤ K → ∀ j : Int,
        start_idx i 5 ≤ j → j < end_idx i 5 12 → 0 ≤ j ∧ j < 12) ∧
      (∀ j : Int, 0 ≤ j → j < 12 →
        ∃! i : Int, 0 ≤ i ∧ i ≤ K ∧ start_idx i 5 ≤ j ∧ j < end_idx i 5 12) :=
  chunk_plan_partition 5 12 (by decide) (by decide)

/-- A twelve-catalog universe shared by the concrete environments below. -/
def configs12 : List String :=
  ["a", "b", "c", "d", "e", "f", "g", "h", "i", "j", "k", "l"]

/-- Baseline concrete environment: secret configured and matched, chunk 0 of
12 catalogs at size 5, build succeeds, continuation network call succeeds. -/
def envBase : Env :=
  { cronSecret := some "s3cr3t", authHeader := some "Bearer s3cr3t",
    chunkParam := some "0", sizeParam := some "5", autoParam := none,
    configs := configs12, buildResult := Except.ok (),
    startTime := 0, buildEndTime := 2,
    baseUrl := "http://example.com/", hostHeader := none,
    dispatchNetResult := Except.ok () }

theorem pyTruthy_some_of_ne (s : String) (h : s ≠ "") :
    pyTruthy (some s) = true := by
  have he : s.isEmpty = false := by
    cases he : s.isEmpty
    · rfl
    · exact absurd ((String.isEmpty_iff s).mp he) h
  simp [pyTruthy, he]

theorem bearer_ne_empty (s : String) : ("Bearer " ++ s) ≠ "" := by
  intro h
  have hlen : ("Bearer " ++ s).length = 0 := by rw [h]; rfl
  rw [String.length_append] at hlen
  have h7 : "Bearer ".length = 7 := rfl
  omega

theorem crawl_no_401_of_authorized (env : Env)
    (hA : authorize env.cronSecret env.authHeader = true) :
    (crawl env).1 ≠ CrawlResult.error 401 "Unauthorized" := by
  obtain ⟨cs, ah, cp, sp, ap, cfg, br, st, bt, bu, hh, dn⟩ := env
  simp only [crawl, hA, Bool.not_true, Bool.false_eq_true, if_false]
  repeat' split
  all_goals simp

theorem crawl_warns_of_authorized (env : Env)
    (hA : authorize env.cronSecret env.authHeader = true) :
    (crawl env).2.warnedNoSecret = !pyTruthy env.cronSecret := by
  obtain ⟨cs, ah, cp, sp, ap, cfg, br, st, bt, bu, hh, dn⟩ := env
  simp only [crawl, hA, Bool.not_true, Bool.false_eq_true, if_false]
  repeat' split
  all_goals simp

/-- C2: with a truthy secret configured, the request passes the guard iff
the header is exactly `"Bearer " + secret` (401 otherwise, before parsing,
universe fetch, build or dispatch); with the secret unset or empty every
request passes the guard and the no-secret warning is emitted. -/
theorem auth_guard_spec (env : Env) :
    (∀ s, env.cronSecret = some s → s ≠ "" →
      (authorize env.cronSecret env.authHeader = true ↔
        env.authHeader = some ("Bearer " ++ s)) ∧
      ((crawl env).1 = CrawlResult.error 401 "Unauthorized" ↔
        env.authHeader ≠ some ("Bearer " ++ s)) ∧
      ((crawl env).1 = CrawlResult.error 401 "Unauthorized" →
        (crawl env).2 = { warnedNoSecret := false, paramsParsed := false,
                          universeFetched := false, buildCalled := false,
                          buildInput := none, backgroundDispatch := none,
                          dispatchErrorLogged := false, clockReads := 1 })) ∧
    (pyTruthy env.cronSecret = false →
      (crawl env).1 ≠ CrawlResult.error 401 "Unauthorized" ∧
      (crawl env).2.warnedNoSecret = true) := by
  constructor
  · intro s hsec hne
    have hT : pyTruthy (some s) = true := pyTruthy_some_of_ne s hne
    have hiff : authorize env.cronSecret env.authHeader = true ↔
        env.authHeader = some ("Bearer " ++ s) := by
      rw [hsec]
      constructor
      · intro hA
        simp only [authorize, hT, if_true, Bool.and_eq_true, beq_iff_eq,
          Option.getD_some] at hA
        exact hA.2
      · intro hm
        have hB : pyTruthy (some ("Bearer " ++ s)) = true :=
          pyTruthy_some_of_ne _ (bearer_ne_empty s)
        simp [authorize, hT, hB, hm]
    by_cases hm : env.authHeader = some ("Bearer " ++ s)
    · have hA : authorize env.cronSecret env.authHeader = true := hiff.mpr hm
      have hne401 := crawl_no_401_of_authorized env hA
      exact ⟨hiff, by simp [hne401, hm], fun habs => absurd habs hne401⟩
    · have hA : authorize env.cronSecret env.authHeader = false := by
        cases hA2 : authorize env.cronSecret env.authHeader
        · rfl
        · exact absurd (hiff.mp hA2) hm
      have h401 : crawl env =
          (CrawlResult.error 401 "Unauthorized",
           { warnedNoSecret := false, paramsParsed := false,
             universeFetched := false, buildCalled := false,
             buildInput := none, backgroundDispatch := none,
             dispatchErrorLogged := false, clockReads := 1 }) := by
        simp [crawl, hA]
      refine ⟨hiff, by simp [h401, hm], fun _ => by simp [h401]⟩
  · intro hsec
    have hA : authorize env.cronSecret env.authHeader = true := by
      simp [authorize, hsec]
    refine ⟨crawl_no_401_of_authorized env hA, ?_⟩
    rw [crawl_warns_of_authorized env hA, hsec]
    rfl

/-- C2 witness: with secret `"s3cr3t"` and header `"Bearer s3cr3t"` the
request is not rejected with 401. -/
theorem auth_guard_spec_witness :
    (crawl envBase).1 ≠ CrawlResult.error 401 "Unauthorized" := by
  have h := ((auth_guard_spec envBase).1 "s3cr3t" rfl (by decide)).2.1
  intro habs
  exact absurd (h.mp habs) (by decide)

/-- C9: a request whose `chunk` or `size` parameter fails Python `int()`
parsing is answered 400 with no side effects: the universe is not fetched,
no build runs, no continuation is dispatched. -/
theorem bad_request_no_side_effects (env : Env)
    (hA : authorize env.cronSecret env.authHeader = true)
    (hbad : parsedChunk env = none ∨ parsedSize env = none) :
    (crawl env).1 = CrawlResult.error 400 "Invalid chunk or size parameters" ∧
    (crawl env).2.universeFetched = false ∧
    (crawl env).2.buildCalled = false ∧
    (crawl env).2.backgroundDispatch = none := by
  obtain ⟨cs, ah, cp, sp, ap, cfg, br, st, bt, bu, hh, dn⟩ := env
  cases hc : parsedChunk ⟨cs, ah, cp, sp, ap, cfg, br, st, bt, bu, hh, dn⟩ <;>
    cases hs : parsedSize ⟨cs, ah, cp, sp, ap, cfg, br, st, bt, bu, hh, dn⟩ <;>
      simp_all [crawl, hA]

/-- The handler on the executed-slice success path, fully evaluated: used to
derive the response-shape claims. -/
theorem crawl_exec_ok (env : Env) (ci si : Int)
    (hA : authorize env.cronSecret env.authHeader = true)
    (hc : parsedChunk env = some ci) (hs : parsedSize env = some si)
    (hsz : ¬ si = 0)
    (hin : ¬ ((env.configs.length : Int) ≤ start_idx ci si))
    (hb : env.buildResult = Except.ok ()) :
    crawl env =
      (CrawlResult.ok
        { status := if has_more ci si (env.configs.length) then "success" else "complete",
          message := "Crawled catalogs " ++ toString (start_idx ci si + 1)
            ++ " to " ++ toString (end_idx ci si (env.configs.length)),
          chunk := some (ci + 1),
          chunks_total := total_chunks (env.configs.length) si,
          processed := some ((pySlice env.configs (start_idx ci si)
            (end_idx ci si (env.configs.length))).length : Int),
          total := (env.configs.length : Int),
          elapsed_seconds := some (pyRound1 (env.buildEndTime - env.startTime)),
          next_chunk := if has_more ci si (env.configs.length) then some (ci + 1) else none,
          auto_continuing := some (has_more ci si (env.configs.length) && parsedAuto env) },
       { warnedNoSecret := !pyTruthy env.cronSecret, paramsParsed := true,
         universeFetched := true, buildCalled := true,
         buildInput := some (pySlice env.configs (start_idx ci si)
           (end_idx ci si (env.configs.length))),
         backgroundDispatch :=
           if has_more ci si (env.configs.length) && parsedAuto env then
             some { base_url := resolve_base_url env.baseUrl env.hostHeader,
                    chunk_index := ci + 1, chunk_size := si,
                    auth_header := env.authHeader }
           else none,
         dispatchErrorLogged :=
           if has_more ci si (env.configs.length) && parsedAuto env then
             (runBackgroundTask
               { base_url := resolve_base_url env.baseUrl env.hostHeader,
                 chunk_index := ci + 1, chunk_size := si,
                 auth_header := env.authHeader } env.dispatchNetResult).2
           else false,
         clockReads := 2 }) := by
  simp only [crawl, hA, Bool.not_true, Bool.false_eq_true, if_false, hc, hs]
  rw [if_neg hsz, if_neg hin, hb]
  cases hcond : has_more ci si (env.configs.length : Int) && parsedAuto env <;>
    simp [hcond]

/-- C9 witness: `chunk=abc` is rejected 400 with no side effects. -/
theorem bad_request_no_side_effects_witness :
    (crawl { envBase with chunkParam := some "abc" }).1 =
      CrawlResult.error 400 "Invalid chunk or size parameters" ∧
    (crawl { envBase with chunkParam := some "abc" }).2.universeFetched = false ∧
    (crawl { envBase with chunkParam := some "abc" }).2.buildCalled = false ∧
    (crawl { envBase with chunkParam := some "abc" }).2.backgroundDispatch = none :=
  bad_request_no_side_effects { envBase with chunkParam := some "abc" }
    (by decide) (Or.inl (by decide))

/-- Concrete environment for the out-of-range scenario:
`chunk=5, size=10, totalItems=12`. -/
def envC3 : Env := { envBase with chunkParam := some "5", sizeParam := some "10" }

/-- C3 counterexample: at `chunk=5, size=10, totalItems=12` the handler
returns `status="complete"` without build or dispatch, but the early-return
body carries no `processed` key at all (`processed = none`), so the claimed
`processed = 0` is not in the response. -/
theorem early_complete_processed_missing :
    resultProcessed (crawl envC3).1 ≠ some 0 ∧
    (crawl envC3).1 = CrawlResult.ok
      { status := "complete", message := "All catalogs already processed.",
        chunk := none, chunks_total := 2, processed := none, total := 12,
        elapsed_seconds := none, next_chunk := none, auto_continuing := none } ∧
    (crawl envC3).2.buildCalled = false ∧
    (crawl envC3).2.backgroundDispatch = none := by decide

/-- C3 (amended): a request whose `startIndex` is at or beyond `totalItems`
returns immediately with `status="complete"` and a body that omits the
`processed` field (along with `chunk`, `elapsed_seconds`, `next_chunk` and
`auto_continuing`), without invoking the build collaborator and without
dispatching any continuation. -/
theorem early_complete_spec (env : Env) (ci si : Int)
    (hA : authorize env.cronSecret env.authHeader = true)
    (hc : parsedChunk env = some ci) (hs : parsedSize env = some si)
    (hsz : ¬ si = 0)
    (hout : (env.configs.length : Int) ≤ start_idx ci si) :
    (crawl env).1 = CrawlResult.ok
      { status := "complete", message := "All catalogs already processed.",
        chunk := none, chunks_total := total_chunks (env.configs.length) si,
        processed := none, total := (env.configs.length : Int),
        elapsed_seconds := none, next_chunk := none, auto_continuing := none } ∧
    (crawl env).2.buildCalled = false ∧
    (crawl env).2.backgroundDispatch = none ∧
    (crawl env).2.clockReads = 1 := by
  simp only [crawl, hA, Bool.not_true, Bool.false_eq_true, if_false, hc, hs]
  rw [if_neg hsz, if_pos hout]
  simp

/-- C3 witness: the amended statement at the `chunk=5, size=10` environment. -/
theorem early_complete_spec_witness :
    (crawl envC3).1 = CrawlResult.ok
      { status := "complete", message := "All catalogs already processed.",
        chunk := none, chunks_total := total_chunks (envC3.configs.length) 10,
        processed := none, total := (envC3.configs.length : Int),
        elapsed_seconds := none, next_chunk := none, auto_continuing := none } ∧
    (crawl envC3).2.buildCalled = false ∧
    (crawl envC3).2.backgroundDispatch = none ∧
    (crawl envC3).2.clockReads = 1 :=
  early_complete_spec envC3 5 10 (by decide) (by decide) (by decide)
    (by decide) (by decide)

/-- Concrete environment with `size=0`. -/
def envC4 : Env := { envBase with sizeParam := some "0" }

/-- C4 counterexample: `size=0` is neither rejected nor clamped; the request
reaches the `total_chunks` division with `chunk_size = 0` (after the
universe fetch), which raises `ZeroDivisionError`, surfaced as HTTP 500 —
not a 400 rejection and not a clamped positive size. -/
theorem size_zero_not_rejected :
    parsedSize envC4 = some 0 ∧
    (crawl envC4).1 = CrawlResult.error 500 "integer division or modulo by zero" ∧
    (crawl envC4).2.universeFetched = true := by decide

/-- C4 (amended): the controller performs no validation of `size`; a request
whose `size` parses to `0` proceeds past parameter parsing and the universe
fetch into the chunk-plan arithmetic, where the `total_chunks` division
raises `ZeroDivisionError`, surfaced as HTTP 500. -/
theorem size_zero_division_error (env : Env) (ci : Int)
    (hA : authorize env.cronSecret env.authHeader = true)
    (hc : parsedChunk env = some ci) (hs : parsedSize env = some 0) :
    (crawl env).1 = CrawlResult.error 500 "integer division or modulo by zero" ∧
    (crawl env).2.paramsParsed = true ∧
    (crawl env).2.universeFetched = true := by
  simp only [crawl, hA, Bool.not_true, Bool.false_eq_true, if_false, hc, hs]
  simp

/-- C4 witness: the amended statement at the `size=0` environment. -/
theorem size_zero_division_error_witness :
    (crawl envC4).1 = CrawlResult.error 500 "integer division or modulo by zero" ∧
    (crawl envC4).2.paramsParsed = true ∧
    (crawl envC4).2.universeFetched = true :=
  size_zero_division_error envC4 0 (by decide) (by decide) (by decide)

/-- Concrete environment whose build collaborator raises `"boom"`. -/
def envC5 : Env := { envBase with buildResult := Except.error "boom" }

/-- C5 counterexample: when the build raises, the handler does return 500
with the raised message, but `time.time()` has been read only once (at
invocation start), so the elapsed wall-clock time is never computed on the
error path — `elapsed = time.time() - start_time` sits after the build call
and the `except` handler logs only the message. -/
theorem build_failure_no_elapsed :
    (crawl envC5).1 = CrawlResult.error 500 "boom" ∧
    (crawl envC5).2.clockReads = 1 ∧
    (crawl envC5).2.buildCalled = true := by decide

/-- C5 (amended): when the build collaborator raises during a non-empty
slice, the handler returns HTTP 500 with the raised message as detail; the
elapsed time is not computed on this path (only the initial clock read has
happened) and no continuation is dispatched. -/
theorem build_failure_spec (env : Env) (ci si : Int) (e : String)
    (hA : authorize env.cronSecret env.authHeader = true)
    (hc : parsedChunk env = some ci) (hs : parsedSize env = some si)
    (hsz : ¬ si = 0)
    (hin : ¬ ((env.configs.length : Int) ≤ start_idx ci si))
    (hb : env.buildResult = Except.error e) :
    (crawl env).1 = CrawlResult.error 500 e ∧
    (crawl env).2.buildCalled = true ∧
    (crawl env).2.clockReads = 1 ∧
    (crawl env).2.backgroundDispatch = none := by
  simp only [crawl, hA, Bool.not_true, Bool.false_eq_true, if_false, hc, hs]
  rw [if_neg hsz, if_neg hin, hb]
  simp

/-- C5 witness: the amended statement at the failing-build environment. -/
theorem build_failure_spec_witness :
    (crawl envC5).1 = CrawlResult.error 500 "boom" ∧
    (crawl envC5).2.buildCalled = true ∧
    (crawl envC5).2.clockReads = 1 ∧
    (crawl envC5).2.backgroundDispatch = none :=
  build_failure_spec envC5 0 5 "boom" (by decide) (by decide) (by decide)
    (by decide) (by decide) rfl

/-- C6: on an executed slice the response has `status` `"complete"` iff
`has_more` is false (else `"success"`), `next_chunk = chunk_index + 1`
exactly when `has_more` (else `null`), `auto_continuing = has_more && auto`,
and the body does not depend on the outcome of the continuation network
call. -/
theorem response_fields_spec (env : Env) (ci si : Int)
    (hA : authorize env.cronSecret env.authHeader = true)
    (hc : parsedChunk env = some ci) (hs : parsedSize env = some si)
    (hsz : ¬ si = 0)
    (hin : ¬ ((env.configs.length : Int) ≤ start_idx ci si))
    (hb : env.buildResult = Except.ok ()) :
    ∃ b : Body, (crawl env).1 = CrawlResult.ok b ∧
      b.status = (if has_more ci si (env.configs.length) then "success" else "complete") ∧
      b.next_chunk = (if has_more ci si (env.configs.length) then some (ci + 1) else none) ∧
      b.auto_continuing = some (has_more ci si (env.configs.length) && parsedAuto env) ∧
      ∀ net : Except String Unit,
        (crawl { env with dispatchNetResult := net }).1 = (crawl env).1 := by
  have h1 := crawl_exec_ok env ci si hA hc hs hsz hin hb
  refine ⟨_, congrArg Prod.fst h1, rfl, rfl, rfl, fun net => ?_⟩
  have h2 := crawl_exec_ok { env with dispatchNetResult := net } ci si hA hc hs hsz hin hb
  rw [congrArg Prod.fst h1, congrArg Prod.fst h2]
  rfl

/-- C6 witness: the response-field properties at the baseline environment. -/
theorem response_fields_spec_witness :
    ∃ b : Body, (crawl envBase).1 = CrawlResult.ok b ∧
      b.status = (if has_more 0 5 (envBase.configs.length) then "success" else "complete") ∧
      b.next_chunk = (if has_more 0 5 (envBase.configs.length) then some (0 + 1) else none) ∧
      b.auto_continuing = some (has_more 0 5 (envBase.configs.length) && parsedAuto envBase) ∧
      ∀ net : Except String Unit,
        (crawl { envBase with dispatchNetResult := net }).1 = (crawl envBase).1 :=
  response_fields_spec envBase 0 5 (by decide) (by decide) (by decide)
    (by decide) (by decide) rfl

theorem pyTruthy_forward (ah : Option String) (h : ah ≠ some "") :
    (if pyTruthy ah then ah else none) = ah := by
  cases ah with
  | none => rfl
  | some a =>
    have ha : a ≠ "" := fun h0 => h (by rw [h0])
    rw [pyTruthy_some_of_ne a ha]
    rfl

/-- C7: on an executed slice, a continuation task is recorded iff
`has_more && auto`; the outbound request of that task targets
`/api/crawl?chunk=<index+1>&size=<size>` on the resolved base URL, forwards
the inbound `Authorization` header verbatim, uses a 10-second timeout; a
failing network call is logged, and the response body never depends on the
dispatch outcome. -/
theorem continuation_dispatch_spec (env : Env) (ci si : Int)
    (hA : authorize env.cronSecret env.authHeader = true)
    (hc : parsedChunk env = some ci) (hs : parsedSize env = some si)
    (hsz : ¬ si = 0)
    (hin : ¬ ((env.configs.length : Int) ≤ start_idx ci si))
    (hb : env.buildResult = Except.ok ())
    (hh : env.authHeader ≠ some "") :
    ((crawl env).2.backgroundDispatch ≠ none ↔
      (has_more ci si (env.configs.length) && parsedAuto env) = true) ∧
    (∀ t : DispatchTask, (crawl env).2.backgroundDispatch = some t →
      (runBackgroundTask t env.dispatchNetResult).1 =
        { url := resolve_base_url env.baseUrl env.hostHeader
            ++ "/api/crawl?chunk=" ++ toString (ci + 1)
            ++ "&size=" ++ toString si,
          authorization := env.authHeader,
          timeoutSeconds := 10 } ∧
      (∀ e, env.dispatchNetResult = Except.error e →
        (crawl env).2.dispatchErrorLogged = true)) ∧
    (∀ net : Except String Unit,
      (crawl { env with dispatchNetResult := net }).1 = (crawl env).1) := by
  have h1 := crawl_exec_ok env ci si hA hc hs hsz hin hb
  rw [h1]
  refine ⟨?_, ?_, fun net => ?_⟩
  · cases hcond : has_more ci si (env.configs.length) && parsedAuto env <;>
      simp [hcond]
  · intro t ht
    cases hcond : has_more ci si (env.configs.length) && parsedAuto env <;>
      rw [hcond] at ht <;> simp at ht
    obtain rfl := ht.symm
    constructor
    · simp only [runBackgroundTask, trigger_next_chunk]
      rw [pyTruthy_forward env.authHeader hh]
    · intro e he
      simp [hcond, he, runBackgroundTask]
  · have h2 := crawl_exec_ok { env with dispatchNetResult := net } ci si hA hc hs hsz hin hb
    rw [congrArg Prod.fst h2]
    rfl

/-- C7 witness: the dispatch properties at the baseline environment. -/
theorem continuation_dispatch_spec_witness :
    ((crawl envBase).2.backgroundDispatch ≠ none ↔
      (has_more 0 5 (envBase.configs.length) && parsedAuto envBase) = true) ∧
    (∀ t : DispatchTask, (crawl envBase).2.backgroundDispatch = some t →
      (runBackgroundTask t envBase.dispatchNetResult).1 =
        { url := resolve_base_url envBase.baseUrl envBase.hostHeader
            ++ "/api/crawl?chunk=" ++ toString ((0 : Int) + 1)
            ++ "&size=" ++ toString (5 : Int),
          authorization := envBase.authHeader,
          timeoutSeconds := 10 } ∧
      (∀ e, envBase.dispatchNetResult = Except.error e →
        (crawl envBase).2.dispatchErrorLogged = true)) ∧
    (∀ net : Except String Unit,
      (crawl { envBase with dispatchNetResult := net }).1 = (crawl envBase).1) :=
  continuation_dispatch_spec envBase 0 5 (by decide) (by decide) (by decide)
    (by decide) (by decide) rfl (by decide)

/-- C10: on an executed slice the reported `chunk` field is the 1-based
`chunk_index + 1`, while `next_chunk` (when `has_more`) and the `chunk`
argument of the dispatched continuation task are the 0-based next index
`chunk_index + 1` — so the chunk number this invocation reports equals the
`next_chunk` value it dispatches. -/
theorem chunk_numbering_spec (env : Env) (ci si : Int)
    (hA : authorize env.cronSecret env.authHeader = true)
    (hc : parsedChunk env = some ci) (hs : parsedSize env = some si)
    (hsz : ¬ si = 0)
    (hin : ¬ ((env.configs.length : Int) ≤ start_idx ci si))
    (hb : env.buildResult = Except.ok ()) :
    ∃ b : Body, (crawl env).1 = CrawlResult.ok b ∧
      b.chunk = some (ci + 1) ∧
      (has_more ci si (env.configs.length) = true → b.next_chunk = some (ci + 1)) ∧
      (∀ t : DispatchTask, (crawl env).2.backgroundDispatch = some t →
        t.chunk_index = ci + 1 ∧ b.chunk = some t.chunk_index) := by
  have h1 := crawl_exec_ok env ci si hA hc hs hsz hin hb
  rw [h1]
  refine ⟨_, rfl, rfl, fun hm => ?_, fun t ht => ?_⟩
  · simp [hm]
  · cases hcond : has_more ci si (env.configs.length) && parsedAuto env <;>
      rw [hcond] at ht <;> simp at ht
    obtain rfl := ht.symm
    exact ⟨rfl, rfl⟩

/-- C10 witness: the chunk-numbering properties at the baseline environment. -/
theorem chunk_numbering_spec_witness :
    ∃ b : Body, (crawl envBase).1 = CrawlResult.ok b ∧
      b.chunk = some ((0 : Int) + 1) ∧
      (has_more 0 5 (envBase.configs.length) = true → b.next_chunk = some ((0 : Int) + 1)) ∧
      (∀ t : DispatchTask, (crawl envBase).2.backgroundDispatch = some t →
        t.chunk_index = (0 : Int) + 1 ∧ b.chunk = some t.chunk_index) :=
  chunk_numbering_spec envBase 0 5 (by decide) (by decide) (by decide)
    (by decide) (by decide) rfl

end PandaPal
